import Mathlib

/-!
Verification of the civic-issue-tracker server model: a shallow embedding of
the Mongoose `Issue` schema methods (`src/server/models/Issue.js`), the public
listing route `GET /api/issues` (`src/server/routes/issues.js`), the statistics
route `GET /api/issues/stats/overview`, and the admin status-update route
`PUT /api/admin/issues/:id/status` (`src/server/routes/admin.js`).

User ids are embedded as `Nat` (ObjectId strings compared by `toString()`),
dates as `ℚ` (milliseconds since the epoch, as JavaScript `Date` arithmetic
produces numbers), and coordinates as `ℚ` with the route's trigonometric
bounding box interpreted over `ℝ`.
-/

/-- One element of the `votes.upvotes` / `votes.downvotes` arrays:
`{ user, votedAt }` (Issue.js lines 84-103). -/
structure VoteEntry where
  user : Nat
  votedAt : ℚ
deriving DecidableEq, Repr

/-- The `votes` subdocument of an issue (Issue.js lines 83-104). -/
structure Votes where
  upvotes : List VoteEntry
  downvotes : List VoteEntry
deriving DecidableEq, Repr

/-- `location.coordinates` (Issue.js lines 56-69). -/
structure Coordinates where
  lat : ℚ
  lng : ℚ
deriving DecidableEq, Repr

/-- `location` (Issue.js lines 51-73); city/state/zip are not used by any
route logic under verification. -/
structure Location where
  address : String
  coordinates : Coordinates
deriving DecidableEq, Repr

/-- The issue document: the fields of the Mongoose schema
(Issue.js lines 3-166) that the routes under verification read or write. -/
structure Issue where
  title : String
  description : String
  category : String
  priority : String
  status : String
  reporter : Nat
  assignedTo : Option Nat
  location : Location
  tags : List String
  votes : Votes
  actualResolutionDate : Option ℚ
  resolutionNotes : Option String
  isPublic : Bool
  viewCount : Nat
  lastActivity : ℚ
  createdAt : ℚ
deriving DecidableEq, Repr

/-- An issue as freshly constructed by `POST /api/issues` with the schema's
defaults (`priority` Medium, `status` Open, empty vote arrays, `isPublic`
true, `viewCount` 0, `lastActivity`/`createdAt` the creation instant). -/
def mkIssue (title description category : String) (reporter : Nat)
    (lat lng : ℚ) (createdAt : ℚ) : Issue :=
  { title := title
  , description := description
  , category := category
  , priority := "Medium"
  , status := "Open"
  , reporter := reporter
  , assignedTo := none
  , location := { address := "", coordinates := { lat := lat, lng := lng } }
  , tags := []
  , votes := { upvotes := [], downvotes := [] }
  , actualResolutionDate := none
  , resolutionNotes := none
  , isPublic := true
  , viewCount := 0
  , lastActivity := createdAt
  , createdAt := createdAt }

/-- `array.some(vote => vote.user.toString() === userId.toString())`:
whether `u` appears in a vote array. -/
def votedIn (l : List VoteEntry) (u : Nat) : Bool :=
  l.any (fun v => v.user == u)

/-- The result shape of `hasUserVoted`: `{ upvoted, downvoted }`. -/
structure VoteState where
  upvoted : Bool
  downvoted : Bool
deriving DecidableEq, Repr

/-- `issueSchema.methods.hasUserVoted` (Issue.js lines 184-188). -/
def Issue.hasUserVoted (i : Issue) (u : Nat) : VoteState :=
  { upvoted := votedIn i.votes.upvotes u
  , downvoted := votedIn i.votes.downvotes u }

/-- `issueSchema.methods.addVote` (Issue.js lines 191-216): toggle off a
repeated vote, flip an opposite vote, otherwise append `{ user }` to the
target array; `lastActivity` is set to the current time and the document is
saved unconditionally.  The returned issue is the saved document state. -/
def Issue.addVote (i : Issue) (userId : Nat) (voteType : String) (now : ℚ) : Issue :=
  let s := i.hasUserVoted userId
  let votes :=
    if voteType == "upvote" then
      if s.upvoted then
        { i.votes with upvotes := i.votes.upvotes.filter (fun v => v.user != userId) }
      else
        { upvotes := i.votes.upvotes ++ [{ user := userId, votedAt := now }]
        , downvotes :=
            if s.downvoted then i.votes.downvotes.filter (fun v => v.user != userId)
            else i.votes.downvotes }
    else if voteType == "downvote" then
      if s.downvoted then
        { i.votes with downvotes := i.votes.downvotes.filter (fun v => v.user != userId) }
      else
        { upvotes :=
            if s.upvoted then i.votes.upvotes.filter (fun v => v.user != userId)
            else i.votes.upvotes
        , downvotes := i.votes.downvotes ++ [{ user := userId, votedAt := now }] }
    else i.votes
  { i with votes := votes, lastActivity := now }

/-- The `voteCount` virtual (Issue.js lines 179-181):
`upvotes.length - downvotes.length`, recomputed from the arrays. -/
def Issue.voteCount (i : Issue) : Int :=
  (i.votes.upvotes.length : Int) - (i.votes.downvotes.length : Int)

/-! ### Membership lemmas for the vote arrays -/

theorem votedIn_nil (u : Nat) : votedIn [] u = false := rfl

theorem votedIn_append (l1 l2 : List VoteEntry) (u : Nat) :
    votedIn (l1 ++ l2) u = (votedIn l1 u || votedIn l2 u) := by
  simp [votedIn]

theorem votedIn_singleton (v : Nat) (t : ℚ) (u : Nat) :
    votedIn [{ user := v, votedAt := t }] u = (v == u) := by
  simp [votedIn]

theorem votedIn_filterOut_self (l : List VoteEntry) (u : Nat) :
    votedIn (l.filter (fun v => v.user != u)) u = false := by
  induction l with
  | nil => rfl
  | cons x xs ih =>
    by_cases hx : x.user = u
    · simp [List.filter_cons, hx]
      exact ih
    · simp [List.filter_cons, hx, votedIn]

theorem votedIn_filterOut_ne (l : List VoteEntry) (u w : Nat) (h : w ≠ u) :
    votedIn (l.filter (fun v => v.user != u)) w = votedIn l w := by
  induction l with
  | nil => rfl
  | cons x xs ih =>
    by_cases hx : x.user = u
    · have huw : (u == w) = false := beq_eq_false_iff_ne.mpr (Ne.symm h)
      simp [List.filter_cons, hx, votedIn, huw] at ih ⊢
      exact ih
    · simp [List.filter_cons, hx, votedIn] at ih ⊢
      rw [ih]

/-! ### One-step shapes of `addVote` -/

theorem addVote_upvote_on (i : Issue) (u : Nat) (t : ℚ)
    (h : votedIn i.votes.upvotes u = false) :
    (i.addVote u "upvote" t).votes =
      { upvotes := i.votes.upvotes ++ [{ user := u, votedAt := t }]
      , downvotes :=
          if votedIn i.votes.downvotes u then
            i.votes.downvotes.filter (fun v => v.user != u)
          else i.votes.downvotes } := by
  simp [Issue.addVote, Issue.hasUserVoted, h]

theorem addVote_upvote_off (i : Issue) (u : Nat) (t : ℚ)
    (h : votedIn i.votes.upvotes u = true) :
    (i.addVote u "upvote" t).votes =
      { upvotes := i.votes.upvotes.filter (fun v => v.user != u)
      , downvotes := i.votes.downvotes } := by
  simp [Issue.addVote, Issue.hasUserVoted, h]

theorem addVote_downvote_on (i : Issue) (u : Nat) (t : ℚ)
    (h : votedIn i.votes.downvotes u = false) :
    (i.addVote u "downvote" t).votes =
      { upvotes :=
          if votedIn i.votes.upvotes u then
            i.votes.upvotes.filter (fun v => v.user != u)
          else i.votes.upvotes
      , downvotes := i.votes.downvotes ++ [{ user := u, votedAt := t }] } := by
  simp [Issue.addVote, Issue.hasUserVoted, h]

theorem addVote_downvote_off (i : Issue) (u : Nat) (t : ℚ)
    (h : votedIn i.votes.downvotes u = true) :
    (i.addVote u "downvote" t).votes =
      { upvotes := i.votes.upvotes
      , downvotes := i.votes.downvotes.filter (fun v => v.user != u) } := by
  simp [Issue.addVote, Issue.hasUserVoted, h]

theorem addVote_other (i : Issue) (u : Nat) (vt : String) (t : ℚ)
    (h1 : vt ≠ "upvote") (h2 : vt ≠ "downvote") :
    (i.addVote u vt t).votes = i.votes := by
  simp [Issue.addVote, h1, h2]

theorem addVote_lastActivity (i : Issue) (u : Nat) (vt : String) (t : ℚ) :
    (i.addVote u vt t).lastActivity = t := by
  simp [Issue.addVote]

/-- C1: starting from any issue state in which user `u` is in neither vote
array, calling `addVote(u, 'upvote')` twice leaves `u` a member of neither
the upvoters nor the downvoters: the second identical vote toggles the first
off rather than erroring or double-counting. -/
theorem addVote_upvote_toggle_off (i : Issue) (u : Nat) (t1 t2 : ℚ)
    (hu : votedIn i.votes.upvotes u = false)
    (hd : votedIn i.votes.downvotes u = false) :
    votedIn ((i.addVote u "upvote" t1).addVote u "upvote" t2).votes.upvotes u = false ∧
    votedIn ((i.addVote u "upvote" t1).addVote u "upvote" t2).votes.downvotes u = false := by
  have h1 := addVote_upvote_on i u t1 hu
  have hmem : votedIn (i.addVote u "upvote" t1).votes.upvotes u = true := by
    rw [h1, votedIn_append, votedIn_singleton]
    simp
  have h2 := addVote_upvote_off (i.addVote u "upvote" t1) u t2 hmem
  constructor
  · rw [h2]
    exact votedIn_filterOut_self _ u
  · rw [h2, h1]
    simp [hd]

/-- C1 witness: the toggle-off property at a concrete issue and user. -/
theorem addVote_upvote_toggle_off_witness :
    votedIn (((mkIssue "Pothole on Main St" "A deep pothole" "Other" 7 0 0 0).addVote
        3 "upvote" 1).addVote 3 "upvote" 2).votes.upvotes 3 = false ∧
    votedIn (((mkIssue "Pothole on Main St" "A deep pothole" "Other" 7 0 0 0).addVote
        3 "upvote" 1).addVote 3 "upvote" 2).votes.downvotes 3 = false :=
  addVote_upvote_toggle_off (mkIssue "Pothole on Main St" "A deep pothole" "Other" 7 0 0 0)
    3 1 2 (by decide) (by decide)

/-! ### Field-level corollaries of the one-step shapes -/

theorem addVote_upvote_on_up (i : Issue) (u : Nat) (t : ℚ)
    (h : votedIn i.votes.upvotes u = false) :
    (i.addVote u "upvote" t).votes.upvotes =
      i.votes.upvotes ++ [{ user := u, votedAt := t }] := by
  rw [addVote_upvote_on i u t h]

theorem addVote_upvote_on_down (i : Issue) (u : Nat) (t : ℚ)
    (h : votedIn i.votes.upvotes u = false) :
    (i.addVote u "upvote" t).votes.downvotes =
      if votedIn i.votes.downvotes u then
        i.votes.downvotes.filter (fun v => v.user != u)
      else i.votes.downvotes := by
  rw [addVote_upvote_on i u t h]

theorem addVote_upvote_off_up (i : Issue) (u : Nat) (t : ℚ)
    (h : votedIn i.votes.upvotes u = true) :
    (i.addVote u "upvote" t).votes.upvotes =
      i.votes.upvotes.filter (fun v => v.user != u) := by
  rw [addVote_upvote_off i u t h]

theorem addVote_upvote_off_down (i : Issue) (u : Nat) (t : ℚ)
    (h : votedIn i.votes.upvotes u = true) :
    (i.addVote u "upvote" t).votes.downvotes = i.votes.downvotes := by
  rw [addVote_upvote_off i u t h]

theorem addVote_downvote_on_up (i : Issue) (u : Nat) (t : ℚ)
    (h : votedIn i.votes.downvotes u = false) :
    (i.addVote u "downvote" t).votes.upvotes =
      if votedIn i.votes.upvotes u then
        i.votes.upvotes.filter (fun v => v.user != u)
      else i.votes.upvotes := by
  rw [addVote_downvote_on i u t h]

theorem addVote_downvote_on_down (i : Issue) (u : Nat) (t : ℚ)
    (h : votedIn i.votes.downvotes u = false) :
    (i.addVote u "downvote" t).votes.downvotes =
      i.votes.downvotes ++ [{ user := u, votedAt := t }] := by
  rw [addVote_downvote_on i u t h]

theorem addVote_downvote_off_up (i : Issue) (u : Nat) (t : ℚ)
    (h : votedIn i.votes.downvotes u = true) :
    (i.addVote u "downvote" t).votes.upvotes = i.votes.upvotes := by
  rw [addVote_downvote_off i u t h]

theorem addVote_downvote_off_down (i : Issue) (u : Nat) (t : ℚ)
    (h : votedIn i.votes.downvotes u = true) :
    (i.addVote u "downvote" t).votes.downvotes =
      i.votes.downvotes.filter (fun v => v.user != u) := by
  rw [addVote_downvote_off i u t h]

theorem addVote_other_up (i : Issue) (u : Nat) (vt : String) (t : ℚ)
    (h1 : vt ≠ "upvote") (h2 : vt ≠ "downvote") :
    (i.addVote u vt t).votes.upvotes = i.votes.upvotes := by
  rw [addVote_other i u vt t h1 h2]

theorem addVote_other_down (i : Issue) (u : Nat) (vt : String) (t : ℚ)
    (h1 : vt ≠ "upvote") (h2 : vt ≠ "downvote") :
    (i.addVote u vt t).votes.downvotes = i.votes.downvotes := by
  rw [addVote_other i u vt t h1 h2]

/-- Every single `addVote` call preserves the at-most-one-membership
property of any user `w`. -/
theorem addVote_preserves_exclusive (j : Issue) (v : Nat) (vt : String) (t : ℚ) (w : Nat)
    (h : ¬ (votedIn j.votes.upvotes w = true ∧ votedIn j.votes.downvotes w = true)) :
    ¬ (votedIn (j.addVote v vt t).votes.upvotes w = true ∧
       votedIn (j.addVote v vt t).votes.downvotes w = true) := by
  by_cases hvt1 : vt = "upvote"
  · subst hvt1
    by_cases hu : votedIn j.votes.upvotes v = true
    · rw [addVote_upvote_off_up j v t hu, addVote_upvote_off_down j v t hu]
      by_cases hw : w = v
      · subst hw
        rw [votedIn_filterOut_self]
        simp
      · rw [votedIn_filterOut_ne _ _ _ hw]
        exact h
    · rw [Bool.not_eq_true] at hu
      rw [addVote_upvote_on_up j v t hu, addVote_upvote_on_down j v t hu]
      by_cases hw : w = v
      · subst hw
        by_cases hd : votedIn j.votes.downvotes w = true
        · rw [if_pos hd, votedIn_filterOut_self]
          simp
        · rw [Bool.not_eq_true] at hd
          rw [if_neg (by simp [hd]), hd]
          simp
      · rw [votedIn_append, votedIn_singleton,
          beq_eq_false_iff_ne.mpr (Ne.symm hw), Bool.or_false]
        by_cases hd : votedIn j.votes.downvotes v = true
        · rw [if_pos hd, votedIn_filterOut_ne _ _ _ hw]
          exact h
        · rw [if_neg (by simp [Bool.not_eq_true] at hd; simp [hd])]
          exact h
  · by_cases hvt2 : vt = "downvote"
    · subst hvt2
      by_cases hd : votedIn j.votes.downvotes v = true
      · rw [addVote_downvote_off_up j v t hd, addVote_downvote_off_down j v t hd]
        by_cases hw : w = v
        · subst hw
          rw [votedIn_filterOut_self]
          simp
        · rw [votedIn_filterOut_ne _ _ _ hw]
          exact h
      · rw [Bool.not_eq_true] at hd
        rw [addVote_downvote_on_up j v t hd, addVote_downvote_on_down j v t hd]
        by_cases hw : w = v
        · subst hw
          by_cases hu : votedIn j.votes.upvotes w = true
          · rw [if_pos hu, votedIn_filterOut_self]
            simp
          · rw [Bool.not_eq_true] at hu
            rw [if_neg (by simp [hu]), hu]
            simp
        · rw [votedIn_append, votedIn_singleton,
            beq_eq_false_iff_ne.mpr (Ne.symm hw), Bool.or_false]
          by_cases hu : votedIn j.votes.upvotes v = true
          · rw [if_pos hu, votedIn_filterOut_ne _ _ _ hw]
            exact h
          · rw [if_neg (by simp [Bool.not_eq_true] at hu; simp [hu])]
            exact h
    · rw [addVote_other_up j v vt t hvt1 hvt2, addVote_other_down j v vt t hvt1 hvt2]
      exact h

/-- C2: from any state in which user `u` is not in both vote sets, an
upvote followed by a downvote by `u` leaves `u` in the downvoters array
only; and every `addVote` call, by any voter with any vote type, preserves
the at-most-one-membership invariant for every user. -/
theorem addVote_flip_and_exclusivity (i : Issue) (u : Nat) (t1 t2 : ℚ)
    (h : ¬ (votedIn i.votes.upvotes u = true ∧ votedIn i.votes.downvotes u = true)) :
    (votedIn ((i.addVote u "upvote" t1).addVote u "downvote" t2).votes.downvotes u = true ∧
     votedIn ((i.addVote u "upvote" t1).addVote u "downvote" t2).votes.upvotes u = false) ∧
    (∀ (j : Issue) (v : Nat) (vt : String) (t : ℚ) (w : Nat),
      ¬ (votedIn j.votes.upvotes w = true ∧ votedIn j.votes.downvotes w = true) →
      ¬ (votedIn (j.addVote v vt t).votes.upvotes w = true ∧
         votedIn (j.addVote v vt t).votes.downvotes w = true)) := by
  constructor
  · by_cases hu : votedIn i.votes.upvotes u = true
    · have hd0 : votedIn i.votes.downvotes u = false := by
        rcases Bool.eq_false_or_eq_true (votedIn i.votes.downvotes u) with ht | hf
        · exact absurd ⟨hu, ht⟩ h
        · exact hf
      have s1up := addVote_upvote_off_up i u t1 hu
      have s1down := addVote_upvote_off_down i u t1 hu
      have h1u : votedIn (i.addVote u "upvote" t1).votes.upvotes u = false := by
        rw [s1up]
        exact votedIn_filterOut_self _ u
      have h1d : votedIn (i.addVote u "upvote" t1).votes.downvotes u = false := by
        rw [s1down]
        exact hd0
      constructor
      · rw [addVote_downvote_on_down _ u t2 h1d, votedIn_append, votedIn_singleton]
        simp
      · rw [addVote_downvote_on_up _ u t2 h1d, if_neg (by simp [h1u]), h1u]
    · rw [Bool.not_eq_true] at hu
      have s1up := addVote_upvote_on_up i u t1 hu
      have s1down := addVote_upvote_on_down i u t1 hu
      have h1u : votedIn (i.addVote u "upvote" t1).votes.upvotes u = true := by
        rw [s1up, votedIn_append, votedIn_singleton]
        simp
      have h1d : votedIn (i.addVote u "upvote" t1).votes.downvotes u = false := by
        rw [s1down]
        by_cases hd : votedIn i.votes.downvotes u = true
        · rw [if_pos hd]
          exact votedIn_filterOut_self _ u
        · rw [Bool.not_eq_true] at hd
          rw [if_neg (by simp [hd])]
          exact hd
      constructor
      · rw [addVote_downvote_on_down _ u t2 h1d, votedIn_append, votedIn_singleton]
        simp
      · rw [addVote_downvote_on_up _ u t2 h1d, if_pos h1u]
        exact votedIn_filterOut_self _ u
  · exact fun j v vt t w hw => addVote_preserves_exclusive j v vt t w hw

/-- C2 witness: the flip property at a concrete issue and user, with the
invariant-preservation conjunct instantiated by the same application. -/
theorem addVote_flip_and_exclusivity_witness :
    (votedIn (((mkIssue "Broken light" "The street light is out" "Utilities" 7 0 0 0).addVote
        3 "upvote" 1).addVote 3 "downvote" 2).votes.downvotes 3 = true ∧
     votedIn (((mkIssue "Broken light" "The street light is out" "Utilities" 7 0 0 0).addVote
        3 "upvote" 1).addVote 3 "downvote" 2).votes.upvotes 3 = false) ∧
    (∀ (j : Issue) (v : Nat) (vt : String) (t : ℚ) (w : Nat),
      ¬ (votedIn j.votes.upvotes w = true ∧ votedIn j.votes.downvotes w = true) →
      ¬ (votedIn (j.addVote v vt t).votes.upvotes w = true ∧
         votedIn (j.addVote v vt t).votes.downvotes w = true)) :=
  addVote_flip_and_exclusivity (mkIssue "Broken light" "The street light is out" "Utilities" 7 0 0 0)
    3 1 2 (by decide)

/-- C3: `voteCount` is always the recomputed difference of the two array
lengths, and the spec scenario holds: a fresh issue upvoted by two distinct
users and downvoted by a third distinct user has `voteCount = 1`. -/
theorem voteCount_recomputed_scenario (a b c : Nat) (t1 t2 t3 : ℚ)
    (hab : a ≠ b) (hac : a ≠ c) (hbc : b ≠ c) :
    (∀ j : Issue, j.voteCount =
      (j.votes.upvotes.length : Int) - (j.votes.downvotes.length : Int)) ∧
    ((((mkIssue "Cracked road" "Large crack across the lane" "Roads & Transportation" 9 0 0 0).addVote
        a "upvote" t1).addVote b "upvote" t2).addVote c "downvote" t3).voteCount = 1 := by
  constructor
  · intro j
    rfl
  · have hab' : (a == b) = false := beq_eq_false_iff_ne.mpr hab
    have hac' : (a == c) = false := beq_eq_false_iff_ne.mpr hac
    have hbc' : (b == c) = false := beq_eq_false_iff_ne.mpr hbc
    simp [Issue.addVote, Issue.hasUserVoted, votedIn, mkIssue, Issue.voteCount,
      hab', hac', hbc']

/-- C3 witness: the scenario with three concrete distinct users. -/
theorem voteCount_recomputed_scenario_witness :
    (∀ j : Issue, j.voteCount =
      (j.votes.upvotes.length : Int) - (j.votes.downvotes.length : Int)) ∧
    ((((mkIssue "Cracked road" "Large crack across the lane" "Roads & Transportation" 9 0 0 0).addVote
        1 "upvote" 10).addVote 2 "upvote" 11).addVote 3 "downvote" 12).voteCount = 1 :=
  voteCount_recomputed_scenario 1 2 3 10 11 12 (by decide) (by decide) (by decide)

/-- C10: a data-layer `addVote` call with a vote type that is neither
'upvote' nor 'downvote' falls through both branches: the vote arrays are
unchanged and no error is raised, yet `lastActivity` is still set to the
current time and the document is still saved (the returned state is the
saved one). -/
theorem addVote_invalid_voteType_frame (i : Issue) (u : Nat) (vt : String) (t : ℚ)
    (h1 : vt ≠ "upvote") (h2 : vt ≠ "downvote") :
    (i.addVote u vt t).votes = i.votes ∧
    (i.addVote u vt t).lastActivity = t := by
  exact ⟨addVote_other i u vt t h1 h2, addVote_lastActivity i u vt t⟩

/-- C10 witness: a concrete invalid vote type. -/
theorem addVote_invalid_voteType_frame_witness :
    ((mkIssue "Flooded park" "Standing water near the gate" "Environment" 5 0 0 0).addVote
        4 "sidevote" 9).votes =
      (mkIssue "Flooded park" "Standing water near the gate" "Environment" 5 0 0 0).votes ∧
    ((mkIssue "Flooded park" "Standing water near the gate" "Environment" 5 0 0 0).addVote
        4 "sidevote" 9).lastActivity = 9 :=
  addVote_invalid_voteType_frame (mkIssue "Flooded park" "Standing water near the gate" "Environment" 5 0 0 0)
    4 "sidevote" 9 (by decide) (by decide)

/-! ### The public listing: `GET /api/issues` (issues.js lines 13-111) -/

/-- Literal case-insensitive containment of `needle` in `hay` over character
lists: the effect of matching `{ $regex: search, $options: 'i' }` for a
search text without regex metacharacters. -/
def charsContain : List Char → List Char → Bool
  | needle, [] => needle.isEmpty
  | needle, c :: t => needle.isPrefixOf (c :: t) || charsContain needle t

/-- Case-insensitive substring test on strings. -/
def strContains (hay needle : String) : Bool :=
  charsContain (needle.data.map Char.toLower) (hay.data.map Char.toLower)

/-- The `$or` search clause (issues.js lines 52-58): the search text matches
the title, the description, or some tag, case-insensitively. -/
def matchesIssueSearch (search : String) (i : Issue) : Bool :=
  strContains i.title search || strContains i.description search ||
    i.tags.any (fun tg => strContains tg search)

/-- The validated query parameters of `GET /api/issues` (issues.js lines
31-43) with their defaults already applied: `page = 1`, `limit = 10`,
`sortBy = 'createdAt'`, `sortOrder = 'desc'`, `radius = 10` folded into the
`geo` triple `(lat, lng, radius)` that is present exactly when both `lat`
and `lng` were given. -/
structure ListQuery where
  page : Nat
  limit : Nat
  category : Option String
  status : Option String
  priority : Option String
  search : Option String
  sortBy : String
  sortOrder : String
  geo : Option (ℚ × ℚ × ℚ)
deriving DecidableEq, Repr

/-- The filter object built at issues.js lines 45-58: `isPublic: true`
always, exact matches on the enum parameters when present, and the search
`$or` clause when present. -/
def matchesFilter (q : ListQuery) (i : Issue) : Bool :=
  i.isPublic &&
  (match q.category with
   | none => true
   | some c => i.category == c) &&
  (match q.status with
   | none => true
   | some s => i.status == s) &&
  (match q.priority with
   | none => true
   | some p => i.priority == p) &&
  (match q.search with
   | none => true
   | some s => matchesIssueSearch s i)

/-- Ascending comparison on the selected sort field (issues.js lines 60-62,
22): `createdAt`, `voteCount`, `priority` (string order, as a document store
compares strings) or `lastActivity`; `createdAt` otherwise. -/
def fieldLe (sortBy : String) (a b : Issue) : Bool :=
  match sortBy with
  | "voteCount" => decide (a.voteCount ≤ b.voteCount)
  | "priority" => decide (a.priority ≤ b.priority)
  | "lastActivity" => decide (a.lastActivity ≤ b.lastActivity)
  | _ => decide (a.createdAt ≤ b.createdAt)

/-- The sort comparator: `sortOrder === 'asc' ? 1 : -1` (issues.js line 62). -/
def issueLe (sortBy sortOrder : String) (a b : Issue) : Bool :=
  if sortOrder == "asc" then fieldLe sortBy a b else fieldLe sortBy b a

/-- The geolocation where-clause (issues.js lines 72-89): latitude within
`userLat ± radius/111` and longitude within
`userLng ± radius/(111·cos(userLat·π/180))`, read over `ℝ`. -/
def geoOk (ulat ulng radius : ℚ) (i : Issue) : Prop :=
  ((ulat : ℝ) - (radius : ℝ) / 111 ≤ (i.location.coordinates.lat : ℝ) ∧
   (i.location.coordinates.lat : ℝ) ≤ (ulat : ℝ) + (radius : ℝ) / 111) ∧
  ((ulng : ℝ) - (radius : ℝ) / (111 * Real.cos ((ulat : ℝ) * Real.pi / 180)) ≤
      (i.location.coordinates.lng : ℝ) ∧
   (i.location.coordinates.lng : ℝ) ≤
      (ulng : ℝ) + (radius : ℝ) / (111 * Real.cos ((ulat : ℝ) * Real.pi / 180)))

/-- The `query.where(...)` step: when a geolocation triple is present the
result set is restricted to the bounding box, otherwise left unchanged. -/
noncomputable def geoApply (geo : Option (ℚ × ℚ × ℚ)) (l : List Issue) : List Issue :=
  match geo with
  | none => l
  | some g => l.filter (fun i => @decide (geoOk g.1 g.2.1 g.2.2 i) (Classical.propDecidable _))

/-- `query.skip(skip).limit(limit)` with `skip = (page - 1) * limit`
(issues.js lines 91-93). -/
def paginate {α : Type} (l : List α) (page limit : Nat) : List α :=
  (l.drop ((page - 1) * limit)).take limit

/-- The `pagination` object of the response (issues.js lines 100-105). -/
structure Pagination where
  currentPage : Nat
  totalPages : Nat
  totalItems : Nat
  itemsPerPage : Nat
deriving DecidableEq, Repr

/-- The body of the listing response (issues.js lines 98-106). -/
structure ListResponse where
  issues : List Issue
  pagination : Pagination
deriving DecidableEq, Repr

/-- The whole `GET /api/issues` pipeline over the stored collection `db`:
filter, sort, geolocation where-clause, skip/take window; `totalItems` is
`Issue.countDocuments(filter)` — the filter WITHOUT the geolocation
where-clause — and `totalPages = Math.ceil(total / limit)`. -/
noncomputable def listIssues (db : List Issue) (q : ListQuery) : ListResponse :=
  let matching := db.filter (matchesFilter q)
  let sorted := matching.mergeSort (issueLe q.sortBy q.sortOrder)
  let geoed := geoApply q.geo sorted
  { issues := paginate geoed q.page q.limit
  , pagination :=
    { currentPage := q.page
    , totalPages := ⌈(matching.length : ℚ) / (q.limit : ℚ)⌉₊
    , totalItems := matching.length
    , itemsPerPage := q.limit } }

/-! ### Pagination lemmas -/

theorem paginate_flatMap_take {α : Type} (l : List α) (L k : Nat) :
    (List.range k).flatMap (fun p => paginate l (p + 1) L) = l.take (k * L) := by
  induction k with
  | zero => simp
  | succ n ih =>
    rw [List.range_succ, List.flatMap_append, ih, Nat.succ_mul, List.take_add]
    simp [paginate]

theorem le_ceil_mul (M L : Nat) (hL : 1 ≤ L) : M ≤ ⌈(M : ℚ) / (L : ℚ)⌉₊ * L := by
  have hL0 : (0 : ℚ) < (L : ℚ) := by exact_mod_cast hL
  have h1 : (M : ℚ) / (L : ℚ) ≤ (⌈(M : ℚ) / (L : ℚ)⌉₊ : ℚ) := Nat.le_ceil _
  have h2 : (M : ℚ) ≤ (⌈(M : ℚ) / (L : ℚ)⌉₊ : ℚ) * (L : ℚ) := (div_le_iff₀ hL0).mp h1
  exact_mod_cast h2

theorem paginate_sublist {α : Type} (l : List α) (page limit : Nat) :
    (paginate l page limit).Sublist l :=
  (List.take_sublist _ _).trans (List.drop_sublist _ _)

theorem geoApply_sublist (geo : Option (ℚ × ℚ × ℚ)) (l : List Issue) :
    (geoApply geo l).Sublist l := by
  cases geo with
  | none => exact List.Sublist.refl l
  | some g => exact List.filter_sublist l

theorem matchesFilter_isPublic (q : ListQuery) (i : Issue)
    (h : matchesFilter q i = true) : i.isPublic = true := by
  simp only [matchesFilter, Bool.and_eq_true] at h
  exact h.1.1.1.1

theorem matchesFilter_and_isPublic (q : ListQuery) (i : Issue) :
    (matchesFilter q i && i.isPublic) = matchesFilter q i := by
  cases hm : matchesFilter q i with
  | false => simp
  | true => simp [matchesFilter_isPublic q i hm]

theorem geoApply_length_le_of_perm (q : ListQuery) (db : List Issue) :
    (geoApply q.geo ((db.filter (matchesFilter q)).mergeSort
      (issueLe q.sortBy q.sortOrder))).length ≤ (db.filter (matchesFilter q)).length := by
  have h1 := (geoApply_sublist q.geo ((db.filter (matchesFilter q)).mergeSort
    (issueLe q.sortBy q.sortOrder))).length_le
  rw [List.length_mergeSort] at h1
  exact h1

/-! ### Concrete issues and queries for the geolocation scenarios -/

/-- A public issue at the bounding-box center (40, -75). -/
def nearIssue : Issue :=
  mkIssue "Pothole near the center" "A pothole right at the search center" "Other" 2 40 (-75) 0

/-- A public issue one degree of latitude north, at (41, -75). -/
def farIssue : Issue :=
  mkIssue "Pothole a degree north" "A pothole one degree of latitude away" "Other" 2 41 (-75) 0

/-- A request with every optional parameter absent and the defaults of
issues.js lines 31-43 applied. -/
def plainQuery : ListQuery :=
  { page := 1
  , limit := 10
  , category := none
  , status := none
  , priority := none
  , search := none
  , sortBy := "createdAt"
  , sortOrder := "desc"
  , geo := none }

/-- The same request with `lat=40`, `lng=-75` and the default radius 10 km. -/
def geoQuery : ListQuery := { plainQuery with geo := some (40, -75, 10) }

theorem cos_forty_pos : 0 < Real.cos ((40 : ℝ) * Real.pi / 180) := by
  apply Real.cos_pos_of_mem_Ioo
  constructor
  · have h := Real.pi_pos
    nlinarith
  · have h := Real.pi_pos
    nlinarith

theorem nearIssue_geoOk : geoOk 40 (-75) 10 nearIssue := by
  have hcos := cos_forty_pos
  have hw : 0 ≤ (10 : ℝ) / (111 * Real.cos ((40 : ℝ) * Real.pi / 180)) :=
    div_nonneg (by norm_num) (le_of_lt (mul_pos (by norm_num) hcos))
  simp only [geoOk, nearIssue, mkIssue]
  push_cast
  refine ⟨⟨by norm_num, by norm_num⟩, ?_, ?_⟩
  · linarith
  · linarith

theorem farIssue_not_geoOk : ¬ geoOk 40 (-75) 10 farIssue := by
  intro h
  have h2 := h.1.2
  simp only [farIssue, mkIssue] at h2
  push_cast at h2
  norm_num at h2

/-- C4 counterexample: over a store of two public issues at (40, -75) and
(41, -75), the request with the geolocation filter centered at (40, -75),
radius 10 km, has exactly one issue satisfying all applied filters — the
box excludes the issue at (41, -75) — yet reports `totalItems = 2`:
`countDocuments` receives the filter without the geolocation clause. -/
theorem listIssues_totalItems_ignores_geo :
    (listIssues [nearIssue, farIssue] geoQuery).pagination.totalItems = 2 ∧
    matchesFilter geoQuery nearIssue = true ∧ geoOk 40 (-75) 10 nearIssue ∧
    matchesFilter geoQuery farIssue = true ∧ ¬ geoOk 40 (-75) 10 farIssue :=
  ⟨by decide, by decide, nearIssue_geoOk, by decide, farIssue_not_geoOk⟩

/-- C4 (amended): for every request with limit ≥ 1 the listing returns the
window skip = (page−1)×limit, take = limit of the sorted,
geolocation-restricted matching list, and concatenating the windows of
pages 1..totalPages yields exactly that list; `totalItems` is the number of
issues matching the non-geolocation filters — equal to the all-filter count
N whenever no geolocation filter is given, in which case the pages cover
the matching set exactly, with no duplicates or omissions — and
`totalPages = ceil(totalItems / limit)`. -/
theorem listIssues_pagination_amended (db : List Issue) (q : ListQuery) (hL : 1 ≤ q.limit) :
    (listIssues db q).pagination.totalItems = (db.filter (matchesFilter q)).length ∧
    (listIssues db q).pagination.totalPages =
      ⌈((db.filter (matchesFilter q)).length : ℚ) / (q.limit : ℚ)⌉₊ ∧
    (listIssues db q).issues =
      paginate (geoApply q.geo ((db.filter (matchesFilter q)).mergeSort
        (issueLe q.sortBy q.sortOrder))) q.page q.limit ∧
    (List.range (listIssues db q).pagination.totalPages).flatMap
        (fun p => paginate (geoApply q.geo ((db.filter (matchesFilter q)).mergeSort
          (issueLe q.sortBy q.sortOrder))) (p + 1) q.limit) =
      geoApply q.geo ((db.filter (matchesFilter q)).mergeSort
        (issueLe q.sortBy q.sortOrder)) ∧
    (q.geo = none →
      (geoApply q.geo ((db.filter (matchesFilter q)).mergeSort
        (issueLe q.sortBy q.sortOrder))).Perm (db.filter (matchesFilter q))) := by
  refine ⟨rfl, rfl, rfl, ?_, ?_⟩
  · have hpages : (listIssues db q).pagination.totalPages =
        ⌈((db.filter (matchesFilter q)).length : ℚ) / (q.limit : ℚ)⌉₊ := rfl
    rw [hpages, paginate_flatMap_take]
    apply List.take_of_length_le
    exact le_trans (geoApply_length_le_of_perm q db) (le_ceil_mul _ _ hL)
  · intro hg
    rw [hg]
    simpa [geoApply] using
      List.mergeSort_perm (db.filter (matchesFilter q)) (issueLe q.sortBy q.sortOrder)

/-- C4 witness: the amended pagination contract at a concrete store and the
default request. -/
theorem listIssues_pagination_amended_witness :
    (listIssues [nearIssue, farIssue] plainQuery).pagination.totalItems =
      ([nearIssue, farIssue].filter (matchesFilter plainQuery)).length ∧
    (listIssues [nearIssue, farIssue] plainQuery).pagination.totalPages =
      ⌈(([nearIssue, farIssue].filter (matchesFilter plainQuery)).length : ℚ) /
        (plainQuery.limit : ℚ)⌉₊ ∧
    (listIssues [nearIssue, farIssue] plainQuery).issues =
      paginate (geoApply plainQuery.geo (([nearIssue, farIssue].filter
        (matchesFilter plainQuery)).mergeSort
        (issueLe plainQuery.sortBy plainQuery.sortOrder))) plainQuery.page plainQuery.limit ∧
    (List.range (listIssues [nearIssue, farIssue] plainQuery).pagination.totalPages).flatMap
        (fun p => paginate (geoApply plainQuery.geo (([nearIssue, farIssue].filter
          (matchesFilter plainQuery)).mergeSort
          (issueLe plainQuery.sortBy plainQuery.sortOrder))) (p + 1) plainQuery.limit) =
      geoApply plainQuery.geo (([nearIssue, farIssue].filter
        (matchesFilter plainQuery)).mergeSort
        (issueLe plainQuery.sortBy plainQuery.sortOrder)) ∧
    (plainQuery.geo = none →
      (geoApply plainQuery.geo (([nearIssue, farIssue].filter
        (matchesFilter plainQuery)).mergeSort
        (issueLe plainQuery.sortBy plainQuery.sortOrder))).Perm
        ([nearIssue, farIssue].filter (matchesFilter plainQuery))) :=
  listIssues_pagination_amended [nearIssue, farIssue] plainQuery (by decide)

/-- C5: an issue passes the geolocation where-clause iff its latitude lies
within lat ± r/111 and its longitude within lng ± r/(111×cos(lat in
radians)); consequently the filter centered at (40, -75) with radius 10 km
excludes the issue located at (41, -75). -/
theorem geo_filter_bounding_box :
    (∀ (ulat ulng r : ℚ) (l : List Issue) (i : Issue),
      i ∈ geoApply (some (ulat, ulng, r)) l ↔
        i ∈ l ∧
        (((ulat : ℝ) - (r : ℝ) / 111 ≤ (i.location.coordinates.lat : ℝ) ∧
          (i.location.coordinates.lat : ℝ) ≤ (ulat : ℝ) + (r : ℝ) / 111) ∧
         ((ulng : ℝ) - (r : ℝ) / (111 * Real.cos ((ulat : ℝ) * Real.pi / 180)) ≤
            (i.location.coordinates.lng : ℝ) ∧
          (i.location.coordinates.lng : ℝ) ≤
            (ulng : ℝ) + (r : ℝ) / (111 * Real.cos ((ulat : ℝ) * Real.pi / 180))))) ∧
    farIssue ∉ geoApply (some (40, -75, 10)) [nearIssue, farIssue] := by
  constructor
  · intro ulat ulng r l i
    simp [geoApply, List.mem_filter, decide_eq_true_eq, geoOk]
  · intro hmem
    simp only [geoApply, List.mem_filter, decide_eq_true_eq] at hmem
    exact farIssue_not_geoOk hmem.2

/-- C9: every issue returned by the public listing `GET /api/issues` has
`isPublic = true`, and the reported `totalItems` counts only public issues,
for every combination of category/status/priority/search/geolocation
parameters: non-public issues are never disclosed through the listing. -/
theorem public_listing_only_public (db : List Issue) (q : ListQuery) :
    (∀ i ∈ (listIssues db q).issues, i.isPublic = true) ∧
    (listIssues db q).pagination.totalItems =
      ((db.filter (fun i => i.isPublic)).filter (matchesFilter q)).length := by
  constructor
  · intro i hi
    have h1 : (listIssues db q).issues =
        paginate (geoApply q.geo ((db.filter (matchesFilter q)).mergeSort
          (issueLe q.sortBy q.sortOrder))) q.page q.limit := rfl
    rw [h1] at hi
    have h2 : i ∈ geoApply q.geo ((db.filter (matchesFilter q)).mergeSort
        (issueLe q.sortBy q.sortOrder)) :=
      (paginate_sublist _ q.page q.limit).subset hi
    have h3 : i ∈ (db.filter (matchesFilter q)).mergeSort (issueLe q.sortBy q.sortOrder) :=
      (geoApply_sublist q.geo _).subset h2
    have h4 : i ∈ db.filter (matchesFilter q) :=
      (List.mergeSort_perm _ _).mem_iff.mp h3
    exact matchesFilter_isPublic q i (List.mem_filter.mp h4).2
  · have h6 : (listIssues db q).pagination.totalItems =
        (db.filter (matchesFilter q)).length := rfl
    rw [h6, List.filter_filter]
    rw [List.filter_congr (fun a _ => matchesFilter_and_isPublic q a)]

/-! ### Statistics: `GET /api/issues/stats/overview` (issues.js lines 346-422) -/

/-- The per-issue value of the `$avg` expression (issues.js lines 376-389):
`(actualResolutionDate - createdAt) / (1000*60*60*24)` for an issue with a
resolution date, null — excluded from the average — otherwise. -/
def resolutionDays (i : Issue) : Option ℚ :=
  match i.actualResolutionDate with
  | none => none
  | some d => some ((d - i.createdAt) / (1000 * 60 * 60 * 24))

/-- `$avg` over the collection: the mean of the non-null per-issue values,
null (`none`) when every value is null. -/
def avgResolutionTime (db : List Issue) : Option ℚ :=
  let vals := db.filterMap resolutionDays
  if vals.length = 0 then none
  else some (vals.sum / (vals.length : ℚ))

/-- The `overview` group of the stats aggregate (issues.js lines 362-392). -/
structure StatsOverview where
  totalIssues : Nat
  openIssues : Nat
  inProgressIssues : Nat
  resolvedIssues : Nat
  avgResolutionTime : Option ℚ
deriving DecidableEq, Repr

/-- The zeroed overview sent by the readyState guard, the catch branch and
the empty-aggregate default (issues.js lines 350-359, 400-406, 411-418). -/
def zeroOverview : StatsOverview :=
  { totalIssues := 0
  , openIssues := 0
  , inProgressIssues := 0
  , resolvedIssues := 0
  , avgResolutionTime := some 0 }

/-- The single `$group: { _id: null, ... }` document of the aggregate, or
the zeroed default when the collection is empty (`stats[0] || { ... }`). -/
def overviewOf (db : List Issue) : StatsOverview :=
  if db.length = 0 then zeroOverview
  else
    { totalIssues := db.length
    , openIssues := (db.filter (fun i => i.status == "Open")).length
    , inProgressIssues := (db.filter (fun i => i.status == "In Progress")).length
    , resolvedIssues := (db.filter (fun i => i.status == "Resolved")).length
    , avgResolutionTime := avgResolutionTime db }

/-- The category aggregate (issues.js lines 394-397): one (category, count)
pair per distinct category, sorted by count descending. -/
def categoryStatsOf (db : List Issue) : List (String × Nat) :=
  (((db.map (fun i => i.category)).dedup).map
    (fun c => (c, (db.filter (fun i => i.category == c)).length))).mergeSort
    (fun a b => decide (b.2 ≤ a.2))

/-- A response of the stats endpoint: status code and JSON body. -/
structure StatsResponse where
  status : Nat
  overview : StatsOverview
  categoryStats : List (String × Nat)
deriving DecidableEq, Repr

/-- The `GET /api/issues/stats/overview` handler: `connected` models
`mongoose.connection.readyState === 1` (issues.js line 349), `aggOk` models
the try block completing without throwing; both failure paths answer 200
with the zeroed body rather than an error. -/
def statsOverviewHandler (connected aggOk : Bool) (db : List Issue) : StatsResponse :=
  if connected = false then
    { status := 200, overview := zeroOverview, categoryStats := [] }
  else if aggOk = false then
    { status := 200, overview := zeroOverview, categoryStats := [] }
  else
    { status := 200, overview := overviewOf db, categoryStats := categoryStatsOf db }

/-- The status code each route's catch branch sends when the backing store
fails: `res.status(500).json({ message })` in every handler of issues.js,
admin.js and users.js except the stats endpoint, whose catch branch sends
the zeroed body with the default 200 status. -/
def routeFailureResponses : List (String × Nat) :=
  [ ("GET /api/issues", 500)
  , ("GET /api/issues/:id", 500)
  , ("POST /api/issues", 500)
  , ("PUT /api/issues/:id", 500)
  , ("DELETE /api/issues/:id", 500)
  , ("POST /api/issues/:id/vote", 500)
  , ("POST /api/issues/:id/comments", 500)
  , ("GET /api/issues/stats/overview", 200)
  , ("GET /api/admin/dashboard", 500)
  , ("GET /api/admin/issues", 500)
  , ("PUT /api/admin/issues/:id/status", 500)
  , ("PUT /api/admin/issues/:id/priority", 500)
  , ("GET /api/admin/users", 500)
  , ("PUT /api/admin/users/:id/role", 500)
  , ("DELETE /api/admin/users/:id", 500)
  , ("GET /api/users/profile", 500)
  , ("GET /api/users/issues", 500)
  , ("GET /api/users/voted-issues", 500)
  , ("PUT /api/users/preferences", 500)
  , ("DELETE /api/users/account", 500) ]

/-- C8: with the store unreachable (readyState not 1) or the aggregation
failing, the stats endpoint answers 200 with an all-zero overview and an
empty category list instead of an error response, and it is the only
endpoint whose store-failure response is not a 500 error. -/
theorem statsOverview_degrades_gracefully (aggOk : Bool) (db : List Issue) :
    statsOverviewHandler false aggOk db =
      { status := 200, overview := zeroOverview, categoryStats := [] } ∧
    statsOverviewHandler true false db =
      { status := 200, overview := zeroOverview, categoryStats := [] } ∧
    ("GET /api/issues/stats/overview", 200) ∈ routeFailureResponses ∧
    (∀ r ∈ routeFailureResponses, r.2 ≠ 500 → r.1 = "GET /api/issues/stats/overview") :=
  ⟨rfl, rfl, by decide, by decide⟩

theorem filterMap_erase_of_none {α β : Type} [DecidableEq α] (f : α → Option β)
    (l : List α) (a : α) (h : f a = none) (hmem : a ∈ l) :
    l.filterMap f = (l.erase a).filterMap f := by
  induction l with
  | nil => cases hmem
  | cons x xs ih =>
    by_cases hx : x = a
    · subst hx
      rw [List.erase_cons_head]
      simp [List.filterMap_cons, h]
    · have hmem2 : a ∈ xs := by
        rcases List.mem_cons.mp hmem with h1 | h2
        · exact absurd h1.symm hx
        · exact h2
      rw [List.erase_cons, if_neg (by simp [hx])]
      cases hfx : f x with
      | none => simp [List.filterMap_cons, hfx, ih hmem2]
      | some b => simp [List.filterMap_cons, hfx, ih hmem2]

/-- An issue resolved two days after creation. -/
def resolvedInTwoDays : Issue :=
  { mkIssue "Patched pothole" "Patched within two days" "Roads & Transportation" 4 0 0 0 with
    status := "Resolved", actualResolutionDate := some 172800000 }

/-- An issue resolved four days after creation. -/
def resolvedInFourDays : Issue :=
  { mkIssue "Replaced light" "Replaced within four days" "Utilities" 4 0 0 0 with
    status := "Resolved", actualResolutionDate := some 345600000 }

/-- An issue with no resolution date. -/
def unresolvedIssue : Issue :=
  mkIssue "Open drain" "Still waiting for a crew" "Environment" 4 0 0 0

/-- C6: the overview's average resolution time averages, over exactly the
issues that have a resolution date, the difference between resolution date
and creation date in days: removing an unresolved issue from the collection
never changes the average, and with resolved durations of 2 and 4 days plus
one unresolved issue the average is 3, not 2. -/
theorem avgResolutionTime_excludes_unresolved (db : List Issue) (i : Issue)
    (hmem : i ∈ db) (hn : i.actualResolutionDate = none) :
    avgResolutionTime db = avgResolutionTime (db.erase i) ∧
    avgResolutionTime [resolvedInTwoDays, resolvedInFourDays, unresolvedIssue] = some 3 := by
  constructor
  · have h0 : resolutionDays i = none := by simp [resolutionDays, hn]
    unfold avgResolutionTime
    rw [filterMap_erase_of_none resolutionDays db i h0 hmem]
  · norm_num [avgResolutionTime, resolutionDays, List.filterMap_cons,
      resolvedInTwoDays, resolvedInFourDays, unresolvedIssue, mkIssue]

/-- C6 witness: the scenario collection with its own unresolved issue. -/
theorem avgResolutionTime_excludes_unresolved_witness :
    avgResolutionTime [resolvedInTwoDays, resolvedInFourDays, unresolvedIssue] =
      avgResolutionTime ([resolvedInTwoDays, resolvedInFourDays, unresolvedIssue].erase
        unresolvedIssue) ∧
    avgResolutionTime [resolvedInTwoDays, resolvedInFourDays, unresolvedIssue] = some 3 :=
  avgResolutionTime_excludes_unresolved
    [resolvedInTwoDays, resolvedInFourDays, unresolvedIssue] unresolvedIssue
    (by decide) (by decide)

/-! ### Admin status update: `PUT /api/admin/issues/:id/status` -/

/-- The update applied by `PUT /api/admin/issues/:id/status` (admin.js lines
147-166): status and lastActivity always; assignedTo when provided;
actualResolutionDate set to the current instant — with resolutionNotes when
provided — exactly when the new status is Resolved or Closed. -/
def updateIssueStatus (i : Issue) (status : String) (assignedTo : Option Nat)
    (notes : Option String) (now : ℚ) : Issue :=
  let base := { i with status := status, lastActivity := now }
  let base :=
    match assignedTo with
    | some a => { base with assignedTo := some a }
    | none => base
  if status == "Resolved" || status == "Closed" then
    let r := { base with actualResolutionDate := some now }
    match notes with
    | some n => { r with resolutionNotes := some n }
    | none => r
  else base

/-- C7: an admin status update to Resolved or Closed sets
`actualResolutionDate` to the single instant of that transition, and an
update to any other status leaves `actualResolutionDate` unchanged. -/
theorem updateIssueStatus_resolution_date (i : Issue) (s : String)
    (a : Option Nat) (n : Option String) (now : ℚ) :
    ((s = "Resolved" ∨ s = "Closed") →
      (updateIssueStatus i s a n now).actualResolutionDate = some now) ∧
    (s ≠ "Resolved" → s ≠ "Closed" →
      (updateIssueStatus i s a n now).actualResolutionDate = i.actualResolutionDate) := by
  constructor
  · intro hs
    have hcond : (s == "Resolved" || s == "Closed") = true := by
      rcases hs with h | h <;> simp [h]
    cases a <;> cases n <;> simp [updateIssueStatus, hcond]
  · intro h1 h2
    have hcond : (s == "Resolved" || s == "Closed") = false := by
      simp [h1, h2]
    cases a <;> cases n <;> simp [updateIssueStatus, hcond]

/-- C7 witness: resolving a concrete issue stamps the resolution date. -/
theorem updateIssueStatus_resolution_date_witness :
    (("Resolved" = "Resolved" ∨ ("Resolved" : String) = "Closed") →
      (updateIssueStatus unresolvedIssue "Resolved" none none 5).actualResolutionDate = some 5) ∧
    (("Resolved" : String) ≠ "Resolved" → ("Resolved" : String) ≠ "Closed" →
      (updateIssueStatus unresolvedIssue "Resolved" none none 5).actualResolutionDate =
        unresolvedIssue.actualResolutionDate) :=
  updateIssueStatus_resolution_date unresolvedIssue "Resolved" none none 5
